import Mathlib

/-!
Verification of the bitpin client library (sync `Client` and async `AsyncClient`
over the shared `CoreClient`) against its natural-language specification.

The Python source is shallowly embedded: each relevant method becomes a pure
Lean function over explicit state, network I/O is driven by an outcome oracle,
and Python exceptions become `Except` errors.
-/

/-- HTTP request methods, embedding the string-valued `enums.RequestMethod`
("get", "post", "put", "delete"): the client stores the lowercase method name
and the handlers compare `response.method.lower()` against it. -/
inductive RequestMethod
  | get
  | post
  | put
  | delete
deriving DecidableEq, BEq, Repr

/-- JSON values, used for decoded response bodies and request payloads. -/
inductive Json
  | null
  | bool (b : Bool)
  | num (n : Int)
  | str (s : String)
  | arr (elems : List Json)
  | obj (fields : List (String × Json))

/-- Errors raised by the response handlers: `api s t` embeds
`APIException(response, s, t)` (the spec's ApiError, carrying the HTTP status
and the raw body text); `request m` embeds `RequestException(m)` (raised when
JSON decoding fails); `indexErr` embeds the IndexError a `[-2]` index raises on
a too-short path. -/
inductive HandlerError
  | api (status : Nat) (text : String)
  | request (msg : String)
  | indexErr
deriving DecidableEq, Repr

/-- The observable fields of an HTTP response that `_handle_response` inspects:
`text` is the raw body, `json` is the standard JSON decoder's result on the body
(`Option.none` when decoding raises ValueError), `pathUrl` is requests'
`response.request.path_url`, and `urlParts` is aiohttp's
`response.request_info.url.parts` for the same request URL. -/
structure HttpResponse where
  method : RequestMethod
  status : Nat
  pathUrl : String
  urlParts : List String
  text : String
  json : Option Json

/-- Success test from both handlers: `str(status).startswith("2")`. `str` of a
natural number is its nonempty decimal-digit string, so the test holds exactly
when the leading decimal digit is 2 (`Nat.toDigits 10` lists the most
significant digit first). -/
def statusSuccess (status : Nat) : Bool :=
  (Nat.toDigits 10 status).head? == some '2'

/-- Python's `xs[-2]`: the last-but-one element, when it exists (otherwise
Python raises IndexError). -/
def secondToLast (xs : List String) : Option String :=
  xs.reverse.get? 1

/-- Python's `s.split(sep)` for a single-character separator, on the character
list: splits at every occurrence of the separator, keeping empty pieces. -/
def pySplitChar (sep : Char) : List Char → List (List Char)
  | [] => [[]]
  | c :: rest =>
    match pySplitChar sep rest with
    | [] => if c = sep then [[], []] else [[c]]
    | g :: gs => if c = sep then [] :: g :: gs else (c :: g) :: gs

/-- Python's `s.split(sep)` for a single-character separator. -/
def pySplit (s : String) (sep : Char) : List String :=
  (pySplitChar sep s.toList).map (fun g => String.mk g)

/-- The synthesized cancellation payload `{"status": "success", "id": id}`. -/
def cancelPayload (id : String) : Json :=
  .obj [("status", .str "success"), ("id", .str id)]

/-- Embedding of `Client._handle_response` (client.py lines 236-263): on a
non-2xx status, a DELETE request yields the synthesized cancellation payload
built from `response.request.path_url.split("/")[-2]` and any other method
raises APIException; on a 2xx status the body is decoded as JSON, RequestException
being raised when decoding fails. -/
def Client.handle_response (r : HttpResponse) : Except HandlerError Json :=
  if !statusSuccess r.status then
    if r.method = .delete then
      match secondToLast (pySplit r.pathUrl '/') with
      | some seg => .ok (cancelPayload seg)
      | Option.none => .error .indexErr
    else .error (.api r.status r.text)
  else
    match r.json with
    | some v => .ok v
    | Option.none => .error (.request ("Invalid Response: " ++ r.text))

/-- Embedding of `AsyncClient._handle_response` (async_client.py lines 303-327):
any non-2xx status raises APIException; on a 2xx status a DELETE request yields
the synthesized cancellation payload built from
`response.request_info.url.parts[-2]`, and any other method decodes the body as
JSON, RequestException being raised when decoding fails. -/
def AsyncClient.handle_response (r : HttpResponse) : Except HandlerError Json :=
  if !statusSuccess r.status then
    .error (.api r.status r.text)
  else
    if r.method = .delete then
      match secondToLast r.urlParts with
      | some seg => .ok (cancelPayload seg)
      | Option.none => .error .indexErr
    else
      match r.json with
      | some v => .ok v
      | Option.none => .error (.request ("Invalid Response: " ++ r.text))

/-- Embedding of `Client.cancel_order` (client.py lines 591-616): issues the
DELETE (whose outcome is `Client.handle_response` on the transport's response),
re-raises an APIException, lets every other exception propagate, and on a
non-raising outcome returns `{"status": "success", "id": order_id}`. -/
def Client.cancel_order (orderId : String) (r : HttpResponse) :
    Except HandlerError Json :=
  match Client.handle_response r with
  | .ok _ => .ok (cancelPayload orderId)
  | .error e => .error e

/-- Embedding of `AsyncClient.cancel_order` (async_client.py lines 655-680),
identical in structure to the blocking variant. -/
def AsyncClient.cancel_order (orderId : String) (r : HttpResponse) :
    Except HandlerError Json :=
  match AsyncClient.handle_response r with
  | .ok _ => .ok (cancelPayload orderId)
  | .error e => .error e

/-- C1: the claim states that a DELETE to the order-cancellation endpoint with a
2xx response yields exactly `{"status": "success", "id": <last-but-one path
segment>}` regardless of body content in both transport variants. The code
violates this in the blocking variant: its handler only synthesizes the payload
on the non-2xx branch, so a 2xx DELETE response with an empty (hence non-JSON)
body raises RequestException, which also escapes `cancel_order` (it catches only
APIException). The non-blocking handler does behave as claimed. This theorem
evaluates both embedded handlers and the blocking `cancel_order` at the failing
input (DELETE `odr/orders/123/`, status 200, body `""`). -/
theorem claim_C1_delete_2xx_empty_body_eval :
    Client.handle_response
        ⟨.delete, 200, "/api/v1/odr/orders/123/",
          ["/", "api", "v1", "odr", "orders", "123", ""], "", Option.none⟩
      = .error (.request "Invalid Response: ")
    ∧ AsyncClient.handle_response
        ⟨.delete, 200, "/api/v1/odr/orders/123/",
          ["/", "api", "v1", "odr", "orders", "123", ""], "", Option.none⟩
      = .ok (cancelPayload "123")
    ∧ Client.cancel_order "123"
        ⟨.delete, 200, "/api/v1/odr/orders/123/",
          ["/", "api", "v1", "odr", "orders", "123", ""], "", Option.none⟩
      = .error (.request "Invalid Response: ") :=
  ⟨rfl, rfl, rfl⟩

/-- C2: on a DELETE response with a non-2xx status, the blocking handler returns
the synthesized success-shaped cancellation payload instead of raising, while
the non-blocking handler raises APIException carrying the status code and raw
response text; the two handlers are therefore not equivalent on this input
shape. -/
theorem claim_C2_delete_non2xx_handlers_differ
    (r : HttpResponse) (seg : String)
    (hm : r.method = .delete)
    (hs : statusSuccess r.status = false)
    (hseg : secondToLast (pySplit r.pathUrl '/') = some seg) :
    Client.handle_response r = .ok (cancelPayload seg)
    ∧ AsyncClient.handle_response r = .error (.api r.status r.text)
    ∧ Client.handle_response r ≠ AsyncClient.handle_response r := by
  have h1 : Client.handle_response r = .ok (cancelPayload seg) := by
    simp [Client.handle_response, hs, hm, hseg]
  have h2 : AsyncClient.handle_response r = .error (.api r.status r.text) := by
    simp [AsyncClient.handle_response, hs]
  refine ⟨h1, h2, ?_⟩
  rw [h1, h2]
  exact fun h => Except.noConfusion h

/-- Witness for C2 at a concrete input: DELETE `odr/orders/55/` answered with
status 404 and body "not found". -/
theorem claim_C2_witness :
    Client.handle_response
        ⟨.delete, 404, "/api/v1/odr/orders/55/",
          ["/", "api", "v1", "odr", "orders", "55", ""], "not found", Option.none⟩
      = .ok (cancelPayload "55")
    ∧ AsyncClient.handle_response
        ⟨.delete, 404, "/api/v1/odr/orders/55/",
          ["/", "api", "v1", "odr", "orders", "55", ""], "not found", Option.none⟩
      = .error (.api 404 "not found")
    ∧ Client.handle_response
        ⟨.delete, 404, "/api/v1/odr/orders/55/",
          ["/", "api", "v1", "odr", "orders", "55", ""], "not found", Option.none⟩
      ≠ AsyncClient.handle_response
        ⟨.delete, 404, "/api/v1/odr/orders/55/",
          ["/", "api", "v1", "odr", "orders", "55", ""], "not found", Option.none⟩ :=
  claim_C2_delete_non2xx_handlers_differ _ "55" rfl rfl rfl

/-- C8: on a non-DELETE response with a non-2xx status (in the code's and the
spec's sense: the status's decimal representation does not start with the digit
2, which for three-digit HTTP statuses is exactly the non-2xx range), both
transport variants' handlers raise APIException carrying that status code and
the raw response body, returning no value. -/
theorem claim_C8_non_delete_non2xx_raises
    (r : HttpResponse)
    (hm : r.method ≠ .delete)
    (hs : statusSuccess r.status = false) :
    Client.handle_response r = .error (.api r.status r.text)
    ∧ AsyncClient.handle_response r = .error (.api r.status r.text) := by
  constructor
  · simp [Client.handle_response, hs, hm]
  · simp [AsyncClient.handle_response, hs]

/-- Witness for C8 at a concrete input: GET `mkt/currencies/` answered with a
simulated 500 and body "server error". -/
theorem claim_C8_witness :
    Client.handle_response
        ⟨.get, 500, "/api/v1/mkt/currencies/",
          ["/", "api", "v1", "mkt", "currencies", ""], "server error", Option.none⟩
      = .error (.api 500 "server error")
    ∧ AsyncClient.handle_response
        ⟨.get, 500, "/api/v1/mkt/currencies/",
          ["/", "api", "v1", "mkt", "currencies", ""], "server error", Option.none⟩
      = .error (.api 500 "server error") :=
  claim_C8_non_delete_non2xx_raises _ (fun h => RequestMethod.noConfusion h) rfl

/-- Python values as they occur in the request-options dictionaries handled by
`CoreClient._get_request_kwargs`: None, booleans, numbers, strings and nested
dicts (the shapes the client's own call sites produce). -/
inductive PyVal
  | none
  | bool (b : Bool)
  | int (n : Int)
  | str (s : String)
  | dict (entries : List (String × PyVal))

/-- A Python dict with string keys, as an insertion-ordered association list
(keys unique, kept at their original position on overwrite, appended on fresh
insert — Python dict semantics). -/
abbrev PyDict := List (String × PyVal)

/-- Python truthiness of the embedded values: None, False, 0, "" and {} are
falsy, everything else truthy. -/
def pyTruthy : PyVal → Bool
  | .none => false
  | .bool b => b
  | .int n => n != 0
  | .str s => !s.isEmpty
  | .dict entries => !entries.isEmpty

/-- Python's `k in d`. -/
def PyDict.hasKey (d : PyDict) (k : String) : Bool :=
  d.any (fun kv => kv.fst == k)

/-- Python's `d.get(k)`. -/
def PyDict.get? (d : PyDict) (k : String) : Option PyVal :=
  (d.find? (fun kv => kv.fst == k)).map (fun kv => kv.snd)

/-- Python's `d[k] = v`: overwrite the (unique) existing entry in place when
the key is present, append a fresh entry otherwise. -/
def PyDict.set : PyDict → String → PyVal → PyDict
  | [], k, v => [(k, v)]
  | kv :: rest, k, v =>
    if kv.fst == k then (k, v) :: rest
    else kv :: PyDict.set rest k v

/-- Python's `d.update(other)`: set each of `other`'s entries in order. -/
def PyDict.updateWith (d other : PyDict) : PyDict :=
  other.foldl (fun acc kv => acc.set kv.fst kv.snd) d

/-- Python's `del d[k]`. -/
def PyDict.erase (d : PyDict) (k : String) : PyDict :=
  d.filter (fun kv => kv.fst != k)

/-- Python errors `_get_request_kwargs` can raise on degenerate inputs:
TypeError (dict operations on a non-dict), KeyError, IndexError (indexing the
second character of a too-short key). -/
inductive PyError
  | typeError
  | keyError
  | indexError
deriving DecidableEq, Repr

/-- The token/config state of a client that `_get_request_kwargs` reads:
`accessToken`/`refreshToken` as stored on the instance and the constructor's
`requests_params` default options. -/
structure CoreClientState where
  accessToken : Option String
  refreshToken : Option String
  requestsParams : Option PyDict

/-- The fixed `CoreClient.REQUEST_TIMEOUT` (the float 10, embedded as the
number 10). -/
def requestTimeout : PyVal := .int 10

/-- Python f-string rendering of an optional string: `None` renders as the text
"None", a string renders as itself. -/
def fstr : Option String → String
  | Option.none => "None"
  | some s => s

/-- Python's `s[i]` on a string, as the one-character string, when the index is
in range (otherwise Python raises IndexError). -/
def pyCharAt (s : String) (i : Nat) : Option String :=
  (s.toList.get? i).map (fun c => String.mk [c])

/-- The query string built by the GET branch of `_get_request_kwargs`:
`"&".join(f"{data[0]}={data[1]}" for data in kwargs["data"])`. Iterating a
Python dict yields its keys, so each joined piece is the key's first character,
"=", and the key's second character; a key shorter than two characters raises
IndexError (`Option.none` here). -/
def pyJoinKeyChars (entries : PyDict) : Option String :=
  (entries.mapM (fun (kv : String × PyVal) => do
      let c0 ← pyCharAt kv.fst 0
      let c1 ← pyCharAt kv.fst 1
      pure (c0 ++ "=" ++ c1))).map (fun parts => String.intercalate "&" parts)

/-- Embedding of `CoreClient._get_request_kwargs` (core.py lines 92-117), the
request builder. In order: set `kwargs["timeout"]` to the fixed timeout; if the
configured `_requests_params` dict is truthy, `kwargs.update` it (its entries
overwriting the caller's); capture `data = kwargs.get("data")` and, when it is
a truthy dict holding a "requests_params" entry, `kwargs.update` that entry and
delete it from the data dict (the local `data` still aliases the original dict
unless the update rebound `kwargs["data"]`, which happens exactly when the
merged entry itself carries a "data" key); if `signed`, set the Authorization
header to "Bearer " + the f-string rendering of the stored access token in the
(possibly default-supplied) headers dict; finally, if the local `data` object
is truthy and the method is "get", replace the body by the joined query string
and delete `kwargs["data"]`. -/
def CoreClient.get_request_kwargs (client : CoreClientState)
    (method : RequestMethod) (signed : Bool) (kwargs0 : PyDict) :
    Except PyError PyDict := do
  let kwargs := PyDict.set kwargs0 "timeout" requestTimeout
  let kwargs :=
    match client.requestsParams with
    | some ps => if ps.isEmpty then kwargs else PyDict.updateWith kwargs ps
    | Option.none => kwargs
  let data0 := PyDict.get? kwargs "data"
  let (kwargs, dataNow) ←
    match data0 with
    | some (.dict entries) =>
      if entries.isEmpty then pure (kwargs, data0)
      else
        let kwargs := PyDict.set kwargs "data" (.dict entries)
        if PyDict.hasKey entries "requests_params" then
          match PyDict.get? entries "requests_params" with
          | some (.dict rp) =>
            let kwargs := PyDict.updateWith kwargs rp
            match PyDict.get? kwargs "data" with
            | some (.dict cur) =>
              let cur2 := PyDict.erase cur "requests_params"
              let kwargs := PyDict.set kwargs "data" (.dict cur2)
              if PyDict.hasKey rp "data" then pure (kwargs, some (.dict entries))
              else pure (kwargs, some (.dict cur2))
            | some _ => Except.error .typeError
            | Option.none => Except.error .keyError
          | some _ => Except.error .typeError
          | Option.none => Except.error .keyError
        else pure (kwargs, some (.dict entries))
    | _ => pure (kwargs, data0)
  let kwargs ←
    if signed then
      match PyDict.get? kwargs "headers" with
      | some (.dict h) =>
        pure (PyDict.set kwargs "headers"
          (.dict (PyDict.set h "Authorization"
            (.str ("Bearer " ++ fstr client.accessToken)))))
      | some _ => Except.error .typeError
      | Option.none =>
        pure (PyDict.set kwargs "headers"
          (.dict [("Authorization", .str ("Bearer " ++ fstr client.accessToken))]))
    else pure kwargs
  match dataNow with
  | some dv =>
    if pyTruthy dv && (method == RequestMethod.get) then
      match PyDict.get? kwargs "data" with
      | some (.dict entries) =>
        match pyJoinKeyChars entries with
        | some q => pure (PyDict.erase (PyDict.set kwargs "params" (.str q)) "data")
        | Option.none => Except.error .indexError
      | some _ => Except.error .typeError
      | Option.none => Except.error .keyError
    else pure kwargs
  | Option.none => pure kwargs

theorem PyDict.get?_eq_none_of_hasKey_false (d : PyDict) (k : String)
    (h : PyDict.hasKey d k = false) : PyDict.get? d k = Option.none := by
  induction d with
  | nil => rfl
  | cons a t ih =>
    simp only [PyDict.hasKey, List.any_cons, Bool.or_eq_false_iff] at h
    simp only [PyDict.get?, List.find?_cons, h.1]
    exact ih (by simpa [PyDict.hasKey] using h.2)

theorem PyDict.hasKey_eq_false_of_not_mem (d : PyDict) (k : String)
    (h : k ∉ d.map Prod.fst) : PyDict.hasKey d k = false := by
  induction d with
  | nil => rfl
  | cons a t ih =>
    simp only [List.map_cons, List.mem_cons, not_or] at h
    simp only [PyDict.hasKey, List.any_cons, Bool.or_eq_false_iff]
    refine ⟨by simpa using Ne.symm h.1, ?_⟩
    simpa [PyDict.hasKey] using ih h.2

theorem PyDict.get?_set_self (d : PyDict) (k : String) (v : PyVal) :
    PyDict.get? (PyDict.set d k v) k = some v := by
  induction d with
  | nil => simp [PyDict.set, PyDict.get?, List.find?]
  | cons a t ih =>
    by_cases ha : a.fst = k
    · simp [PyDict.set, ha, PyDict.get?, List.find?]
    · simp only [PyDict.set, beq_iff_eq, ha, if_false]
      simpa [PyDict.get?, List.find?_cons, ha] using ih

theorem PyDict.get?_set_ne (d : PyDict) (k k2 : String) (v : PyVal) (h : k2 ≠ k) :
    PyDict.get? (PyDict.set d k v) k2 = PyDict.get? d k2 := by
  induction d with
  | nil =>
    have hb : (k == k2) = false := by simp [Ne.symm h]
    simp [PyDict.set, PyDict.get?, List.find?, hb]
  | cons a t ih =>
    by_cases ha : a.fst = k
    · simp [PyDict.set, ha, PyDict.get?, List.find?_cons, Ne.symm h]
    · simp only [PyDict.set, beq_iff_eq, ha, if_false]
      by_cases ha2 : a.fst = k2
      · simp [PyDict.get?, List.find?_cons, ha2]
      · simpa [PyDict.get?, List.find?_cons, ha2] using ih

theorem PyDict.updateWith_cons (d : PyDict) (a : String × PyVal) (t : PyDict) :
    PyDict.updateWith d (a :: t) = PyDict.updateWith (PyDict.set d a.fst a.snd) t :=
  rfl

theorem PyDict.get?_updateWith_absent (d ps : PyDict) (k : String)
    (h : PyDict.hasKey ps k = false) :
    PyDict.get? (PyDict.updateWith d ps) k = PyDict.get? d k := by
  induction ps generalizing d with
  | nil => rfl
  | cons a t ih =>
    simp only [PyDict.hasKey, List.any_cons, Bool.or_eq_false_iff] at h
    have ha : k ≠ a.fst := by
      intro hk
      rw [hk] at h
      simp at h
    rw [PyDict.updateWith_cons, ih _ h.2]
    exact PyDict.get?_set_ne d a.fst k a.snd ha

theorem PyDict.get?_updateWith_mem (d ps : PyDict) (k : String) (v : PyVal)
    (hnd : (ps.map Prod.fst).Nodup) (hmem : (k, v) ∈ ps) :
    PyDict.get? (PyDict.updateWith d ps) k = some v := by
  induction ps generalizing d with
  | nil => cases hmem
  | cons a t ih =>
    rw [PyDict.updateWith_cons]
    simp only [List.map_cons, List.nodup_cons] at hnd
    rcases List.mem_cons.mp hmem with heq | hmem2
    · have hfst : a.fst = k := by rw [← heq]
      have hk : PyDict.hasKey t k = false :=
        PyDict.hasKey_eq_false_of_not_mem t k (hfst ▸ hnd.1)
      rw [PyDict.get?_updateWith_absent _ _ _ hk]
      have hset : PyDict.set d a.fst a.snd = PyDict.set d k v := by rw [← heq]
      rw [hset]
      exact PyDict.get?_set_self d k v
    · exact ih _ hnd.2 hmem2

/-- Helper: when neither the caller's options nor the configured defaults carry
a "data" entry, the unsigned request builder reduces to the fixed-timeout
insertion followed by the defaults merge. -/
theorem get_request_kwargs_no_data_unsigned
    (tok rtok : Option String) (ps : PyDict) (method : RequestMethod)
    (kwargs0 : PyDict)
    (hd0 : PyDict.hasKey kwargs0 "data" = false)
    (hpsd : PyDict.hasKey ps "data" = false) :
    CoreClient.get_request_kwargs ⟨tok, rtok, some ps⟩ method false kwargs0 =
      Except.ok (PyDict.updateWith (PyDict.set kwargs0 "timeout" requestTimeout) ps) := by
  have hdata : PyDict.get?
      (PyDict.updateWith (PyDict.set kwargs0 "timeout" requestTimeout) ps) "data"
      = Option.none := by
    rw [PyDict.get?_updateWith_absent _ _ _ hpsd,
      PyDict.get?_set_ne _ _ _ _ (by decide),
      PyDict.get?_eq_none_of_hasKey_false _ _ hd0]
  by_cases hE : ps.isEmpty
  · have hps0 : ps = [] := by simpa using hE
    subst hps0
    have hdata0 : PyDict.get? (PyDict.set kwargs0 "timeout" requestTimeout) "data"
        = Option.none := by
      rw [PyDict.get?_set_ne _ _ _ _ (by decide),
        PyDict.get?_eq_none_of_hasKey_false _ _ hd0]
    simp [CoreClient.get_request_kwargs, hdata0, PyDict.updateWith]
    rfl
  · simp [CoreClient.get_request_kwargs, hE, hdata]
    rfl

/-- Helper: the signed variant of the previous evaluation, when the caller
supplied a headers dict and the defaults carry neither "headers" nor "data":
the result additionally rebinds "headers" with the Authorization entry set. -/
theorem get_request_kwargs_signed_headers
    (tok : String) (rtok : Option String) (ps : PyDict) (method : RequestMethod)
    (kwargs0 H : PyDict)
    (hd0 : PyDict.hasKey kwargs0 "data" = false)
    (hpsd : PyDict.hasKey ps "data" = false)
    (hH : PyDict.get? kwargs0 "headers" = some (.dict H))
    (hpsh : PyDict.hasKey ps "headers" = false) :
    CoreClient.get_request_kwargs ⟨some tok, rtok, some ps⟩ method true kwargs0 =
      Except.ok (PyDict.set
        (PyDict.updateWith (PyDict.set kwargs0 "timeout" requestTimeout) ps)
        "headers"
        (.dict (PyDict.set H "Authorization" (.str ("Bearer " ++ tok))))) := by
  have hdata : PyDict.get?
      (PyDict.updateWith (PyDict.set kwargs0 "timeout" requestTimeout) ps) "data"
      = Option.none := by
    rw [PyDict.get?_updateWith_absent _ _ _ hpsd,
      PyDict.get?_set_ne _ _ _ _ (by decide),
      PyDict.get?_eq_none_of_hasKey_false _ _ hd0]
  have hdr : PyDict.get?
      (PyDict.updateWith (PyDict.set kwargs0 "timeout" requestTimeout) ps) "headers"
      = some (.dict H) := by
    rw [PyDict.get?_updateWith_absent _ _ _ hpsh,
      PyDict.get?_set_ne _ _ _ _ (by decide), hH]
  by_cases hE : ps.isEmpty
  · have hps0 : ps = [] := by simpa using hE
    subst hps0
    have hdata0 : PyDict.get? (PyDict.set kwargs0 "timeout" requestTimeout) "data"
        = Option.none := by
      rw [PyDict.get?_set_ne _ _ _ _ (by decide),
        PyDict.get?_eq_none_of_hasKey_false _ _ hd0]
    have hdr0 : PyDict.get? (PyDict.set kwargs0 "timeout" requestTimeout) "headers"
        = some (.dict H) := by
      rw [PyDict.get?_set_ne _ _ _ _ (by decide), hH]
    simp [CoreClient.get_request_kwargs, hdata0, hdr0, fstr, PyDict.updateWith]
    rfl
  · simp [CoreClient.get_request_kwargs, hE, hdata, hdr, fstr]
    rfl

/-- C3 counterexample: the claim states the caller's per-call options win over
the configured defaults on conflicting keys and that the fixed timeout applies
only when the caller has not overridden it. The code does the opposite on both
counts: `kwargs.update(self._requests_params)` lets the default win, and
`kwargs["timeout"] = REQUEST_TIMEOUT` overwrites a caller-supplied timeout
unconditionally. At defaults `{"verify": False}` and caller options
`{"verify": True, "timeout": 5}`, the finalized options carry the default's
verify value and the fixed timeout, not the caller's values. -/
theorem claim_C3_counterexample :
    CoreClient.get_request_kwargs
        ⟨Option.none, Option.none, some [("verify", .bool false)]⟩ .post false
        [("verify", .bool true), ("timeout", .int 5)]
      = .ok [("verify", .bool false), ("timeout", .int 10)]
    ∧ PyDict.get? [("verify", PyVal.bool false), ("timeout", PyVal.int 10)] "verify"
        ≠ some (.bool true)
    ∧ PyDict.get? [("verify", PyVal.bool false), ("timeout", PyVal.int 10)] "timeout"
        ≠ some (.int 5) := by
  refine ⟨rfl, ?_, ?_⟩
  · intro h
    rw [show PyDict.get? [("verify", PyVal.bool false), ("timeout", PyVal.int 10)]
        "verify" = some (PyVal.bool false) from rfl] at h
    exact PyVal.noConfusion (Option.some.inj h) (fun hb => Bool.noConfusion hb)
  · intro h
    rw [show PyDict.get? [("verify", PyVal.bool false), ("timeout", PyVal.int 10)]
        "timeout" = some (PyVal.int 10) from rfl] at h
    exact PyVal.noConfusion (Option.some.inj h) (fun hn => absurd hn (by decide))

/-- C3 amended: the finalized request options are the caller-supplied per-call
options with the fixed request timeout applied unconditionally (overwriting a
caller-supplied timeout) and the configured default options then shallow-merged
over them, the default's value winning on every conflicting key (stated here
away from the body-handling special cases: no "data" entry on either side). -/
theorem claim_C3_amended_merge_semantics
    (tok rtok : Option String) (ps : PyDict) (method : RequestMethod)
    (kwargs0 : PyDict)
    (hd0 : PyDict.hasKey kwargs0 "data" = false)
    (hpsd : PyDict.hasKey ps "data" = false)
    (hnd : (ps.map Prod.fst).Nodup) :
    ∃ d, CoreClient.get_request_kwargs ⟨tok, rtok, some ps⟩ method false kwargs0
        = .ok d
      ∧ (∀ k v, (k, v) ∈ ps → PyDict.get? d k = some v)
      ∧ (∀ k, PyDict.hasKey ps k = false → k ≠ "timeout" →
          PyDict.get? d k = PyDict.get? kwargs0 k)
      ∧ (PyDict.hasKey ps "timeout" = false →
          PyDict.get? d "timeout" = some requestTimeout) := by
  refine ⟨_, get_request_kwargs_no_data_unsigned tok rtok ps method kwargs0 hd0 hpsd,
    ?_, ?_, ?_⟩
  · intro k v hmem
    exact PyDict.get?_updateWith_mem _ _ _ _ hnd hmem
  · intro k hk hkt
    rw [PyDict.get?_updateWith_absent _ _ _ hk, PyDict.get?_set_ne _ _ _ _ hkt]
  · intro hk
    rw [PyDict.get?_updateWith_absent _ _ _ hk]
    exact PyDict.get?_set_self _ _ _

/-- Witness for the amended C3 at a concrete input: defaults
`{"verify": False}` against caller options `{"verify": True, "timeout": 5}`. -/
theorem claim_C3_amended_witness :
    ∃ d, CoreClient.get_request_kwargs
        ⟨Option.none, Option.none, some [("verify", .bool false)]⟩ .post false
        [("verify", .bool true), ("timeout", .int 5)]
        = .ok d
      ∧ (∀ k v, (k, v) ∈ ([("verify", PyVal.bool false)] : PyDict) →
          PyDict.get? d k = some v)
      ∧ (∀ k, PyDict.hasKey ([("verify", PyVal.bool false)] : PyDict) k = false →
          k ≠ "timeout" →
          PyDict.get? d k
            = PyDict.get? [("verify", PyVal.bool true), ("timeout", PyVal.int 5)] k)
      ∧ (PyDict.hasKey ([("verify", PyVal.bool false)] : PyDict) "timeout" = false →
          PyDict.get? d "timeout" = some requestTimeout) :=
  claim_C3_amended_merge_semantics Option.none Option.none
    [("verify", .bool false)] .post
    [("verify", .bool true), ("timeout", .int 5)]
    (by decide) (by decide) (by simp)

/-- C4: the claim states that a GET whose body is a non-empty key-value mapping
gets a query string of the mapping's `key=value` pairs joined by `&`. The code
iterates the mapping itself — which yields its keys — and formats
`f"{data[0]}={data[1]}"`, i.e. the first and second characters of each key.
Evaluated at the failing input `data = {"limit": "2", "offset": "40"}` on a GET,
the builder produces the query string "l=i&o=f" (and does drop the body), not
"limit=2&offset=40" as the claim requires. -/
theorem claim_C4_get_body_query_string_eval :
    CoreClient.get_request_kwargs ⟨Option.none, Option.none, Option.none⟩ .get false
        [("data", .dict [("limit", .str "2"), ("offset", .str "40")])]
      = .ok [("timeout", requestTimeout), ("params", .str "l=i&o=f")]
    ∧ ("l=i&o=f" : String) ≠ "limit=2&offset=40" := by
  refine ⟨rfl, ?_⟩
  decide

/-- C6 counterexample: the claim states that on a signed request every
caller-supplied header entry other than Authorization is preserved. When the
configured default options themselves carry a "headers" entry, the defaults
merge replaces the caller's header dict wholesale before the Authorization
injection: with caller headers `{"X-Custom": "1"}` and defaults
`{"headers": {}}`, the finalized headers contain only the Authorization entry
and the caller's "X-Custom" entry is gone. -/
theorem claim_C6_counterexample :
    CoreClient.get_request_kwargs
        ⟨some "TOK", Option.none, some [("headers", .dict [])]⟩ .post true
        [("headers", .dict [("X-Custom", .str "1")])]
      = .ok [("headers", .dict [("Authorization", .str "Bearer TOK")]),
          ("timeout", .int 10)]
    ∧ PyDict.get? [("Authorization", PyVal.str "Bearer TOK")] "X-Custom"
        = Option.none := by
  exact ⟨rfl, rfl⟩

/-- C6 amended: for every signed request, the finalized headers carry
`Authorization = "Bearer " ++ <stored access token>`, overwriting any prior
value for that key; every other caller-supplied header entry is preserved
provided the merged default options carry no "headers" (or "data") entry of
their own — such an entry replaces the caller's header dict wholesale before
the injection, as the counterexample shows. -/
theorem claim_C6_amended_signed_header_injection
    (tok : String) (rtok : Option String) (ps : PyDict) (method : RequestMethod)
    (kwargs0 H : PyDict)
    (hd0 : PyDict.hasKey kwargs0 "data" = false)
    (hpsd : PyDict.hasKey ps "data" = false)
    (hH : PyDict.get? kwargs0 "headers" = some (.dict H))
    (hpsh : PyDict.hasKey ps "headers" = false) :
    ∃ d hdrs,
      CoreClient.get_request_kwargs ⟨some tok, rtok, some ps⟩ method true kwargs0
        = .ok d
      ∧ PyDict.get? d "headers" = some (.dict hdrs)
      ∧ PyDict.get? hdrs "Authorization" = some (.str ("Bearer " ++ tok))
      ∧ (∀ k, k ≠ "Authorization" → PyDict.get? hdrs k = PyDict.get? H k) := by
  refine ⟨_, PyDict.set H "Authorization" (.str ("Bearer " ++ tok)),
    get_request_kwargs_signed_headers tok rtok ps method kwargs0 H hd0 hpsd hH hpsh,
    PyDict.get?_set_self _ _ _, PyDict.get?_set_self _ _ _, ?_⟩
  intro k hk
  exact PyDict.get?_set_ne _ _ _ _ hk

/-- Witness for the amended C6 at a concrete input: caller headers
`{"X-Custom": "1", "Authorization": "stale"}`, defaults `{"foo": 1}`, stored
access token "TOK". -/
theorem claim_C6_amended_witness :
    ∃ d hdrs,
      CoreClient.get_request_kwargs
          ⟨some "TOK", Option.none, some [("foo", .int 1)]⟩ .post true
          [("headers", .dict [("X-Custom", .str "1"), ("Authorization", .str "stale")])]
        = .ok d
      ∧ PyDict.get? d "headers" = some (.dict hdrs)
      ∧ PyDict.get? hdrs "Authorization" = some (.str ("Bearer " ++ "TOK"))
      ∧ (∀ k, k ≠ "Authorization" →
          PyDict.get? hdrs k
            = PyDict.get? [("X-Custom", PyVal.str "1"),
                ("Authorization", PyVal.str "stale")] k) :=
  claim_C6_amended_signed_header_injection "TOK" Option.none [("foo", .int 1)] .post
    [("headers", .dict [("X-Custom", .str "1"), ("Authorization", .str "stale")])]
    [("X-Custom", .str "1"), ("Authorization", .str "stale")]
    (by decide) (by decide) rfl (by decide)

/-- One order spec in a bulk-create call: the "symbol" entry that the local
validation reads, plus the remaining fields (base_amount, price, side, type),
which the validation does not inspect. -/
structure BulkOrder where
  symbol : String
  fields : PyDict

/-- The reference market of `create_order_bulk`:
`orders[0]["symbol"] if orders else None`. -/
def bulkMarket (orders : List BulkOrder) : Option String :=
  orders.head?.map (fun o => o.symbol)

/-- Outcome of the local phase of `create_order_bulk`: `error msg` is the
ValueError raised before any network call is issued; `post url orders` is the
signed network POST to the bulk endpoint that the method then performs. -/
inductive BulkResult
  | error (msg : String)
  | post (url : String) (orders : List BulkOrder)

/-- `CoreClient.BULK_ORDER_URL`. -/
def BULK_ORDER_URL : String := "odr/orders/bulk/"

/-- Embedding of `Client.create_order_bulk` (client.py lines 618-662): raise
ValueError when more than 10 orders are supplied; compute the reference market
from the first order (None when the list is empty); raise ValueError when any
order's symbol differs from it; otherwise POST to the bulk endpoint. -/
def Client.create_order_bulk (orders : List BulkOrder) : BulkResult :=
  if orders.length > 10 then
    .error "A maximum of 10 orders can be placed at a time! not creating order!"
  else if orders.any (fun o => !(some o.symbol == bulkMarket orders)) then
    .error "All orders must be in the same market! not creating order!"
  else .post BULK_ORDER_URL orders

/-- Embedding of `AsyncClient.create_order_bulk` (async_client.py lines
682-726), whose body is identical to the blocking variant's. -/
def AsyncClient.create_order_bulk (orders : List BulkOrder) : BulkResult :=
  if orders.length > 10 then
    .error "A maximum of 10 orders can be placed at a time! not creating order!"
  else if orders.any (fun o => !(some o.symbol == bulkMarket orders)) then
    .error "All orders must be in the same market! not creating order!"
  else .post BULK_ORDER_URL orders

theorem create_order_bulk_same :
    AsyncClient.create_order_bulk = Client.create_order_bulk :=
  rfl

/-- Helper: a list in which two positions hold different symbols has a member
whose symbol differs from the head's. -/
theorem exists_ne_head_symbol (a : BulkOrder) (t : List BulkOrder)
    (i j : Fin (a :: t).length)
    (hij : ((a :: t).get i).symbol ≠ ((a :: t).get j).symbol) :
    ∃ o ∈ a :: t, o.symbol ≠ a.symbol := by
  by_cases hi : ((a :: t).get i).symbol = a.symbol
  · refine ⟨(a :: t).get j, List.get_mem _ j.1 j.2, ?_⟩
    intro hj
    exact hij (by rw [hi, hj])
  · exact ⟨(a :: t).get i, List.get_mem _ i.1 i.2, hi⟩

/-- C5: a bulk-create call whose order list exceeds 10 entries, or whose
entries mention two distinct market symbols, fails with the ValueError raised
before any network call (the result is the `error` outcome, which carries no
POST), in both transport variants. -/
theorem claim_C5_bulk_validation (orders : List BulkOrder)
    (h : orders.length > 10
      ∨ ∃ i j : Fin orders.length, (orders.get i).symbol ≠ (orders.get j).symbol) :
    (∃ msg, Client.create_order_bulk orders = .error msg)
    ∧ (∃ msg, AsyncClient.create_order_bulk orders = .error msg) := by
  rw [create_order_bulk_same, and_self]
  by_cases hlen : orders.length > 10
  · refine ⟨"A maximum of 10 orders can be placed at a time! not creating order!", ?_⟩
    simp only [Client.create_order_bulk, if_pos hlen]
  · obtain ⟨i, j, hij⟩ := h.resolve_left hlen
    cases orders with
    | nil => exact i.elim0
    | cons a t =>
      obtain ⟨o, hmem, hne⟩ := exists_ne_head_symbol a t i j hij
      have hany : ((a :: t).any
          (fun o => !(some o.symbol == bulkMarket (a :: t)))) = true := by
        refine List.any_eq_true.mpr ⟨o, hmem, ?_⟩
        simp [bulkMarket, hne]
      refine ⟨"All orders must be in the same market! not creating order!", ?_⟩
      simp only [Client.create_order_bulk, if_neg hlen, if_pos hany]

/-- Witness for C5 at a concrete input: two order specs with differing
symbols. -/
theorem claim_C5_witness :
    (∃ msg, Client.create_order_bulk
        [⟨"BTC_IRT", []⟩, ⟨"ETH_IRT", []⟩] = .error msg)
    ∧ (∃ msg, AsyncClient.create_order_bulk
        [⟨"BTC_IRT", []⟩, ⟨"ETH_IRT", []⟩] = .error msg) :=
  claim_C5_bulk_validation [⟨"BTC_IRT", []⟩, ⟨"ETH_IRT", []⟩]
    (Or.inr ⟨⟨0, by decide⟩, ⟨1, by decide⟩, by decide⟩)

/-- C10: for the empty order list, both checks of `create_order_bulk` pass
vacuously — the reference market is None — and the call proceeds to the network
POST to the bulk endpoint, in both transport variants. -/
theorem claim_C10_bulk_empty_proceeds :
    Client.create_order_bulk [] = .post BULK_ORDER_URL []
    ∧ AsyncClient.create_order_bulk [] = .post BULK_ORDER_URL []
    ∧ bulkMarket [] = Option.none :=
  ⟨rfl, rfl, rfl⟩

/-- Events observable from a background maintainer loop: one attempt of the
maintained operation (`call`), or one `time.sleep`/`asyncio.sleep` of the
configured interval (`sleep`). -/
inductive MaintEvent
  | call
  | sleep (seconds : Nat)
deriving DecidableEq, Repr

/-- Embedding of `Client._background_refresh_token_task` (client.py lines
287-295). The infinite `while True` loop runs, per iteration,
`try: refresh_access_token(); sleep(interval) except Exception: continue`; it
is observed here for as many iterations as the outcome oracle supplies (one
Bool per attempt of the maintained operation, true = no exception). -/
def Client.background_refresh_token_task (interval : Nat) :
    List Bool → List MaintEvent
  | [] => []
  | ok :: rest =>
    if ok then
      .call :: .sleep interval :: Client.background_refresh_token_task interval rest
    else
      .call :: Client.background_refresh_token_task interval rest

/-- Embedding of `Client._background_relogin_task` (client.py lines 277-285),
structurally identical with `login` as the maintained operation. -/
def Client.background_relogin_task (interval : Nat) :
    List Bool → List MaintEvent
  | [] => []
  | ok :: rest =>
    if ok then
      .call :: .sleep interval :: Client.background_relogin_task interval rest
    else
      .call :: Client.background_relogin_task interval rest

/-- Embedding of `AsyncClient._background_refresh_token_task`
(async_client.py lines 339-347), identical to the blocking variant with
`asyncio.sleep` in place of `time.sleep`. -/
def AsyncClient.background_refresh_token_task (interval : Nat) :
    List Bool → List MaintEvent
  | [] => []
  | ok :: rest =>
    if ok then
      .call :: .sleep interval
        :: AsyncClient.background_refresh_token_task interval rest
    else
      .call :: AsyncClient.background_refresh_token_task interval rest

/-- Embedding of `AsyncClient._background_relogin_task` (async_client.py lines
329-337). -/
def AsyncClient.background_relogin_task (interval : Nat) :
    List Bool → List MaintEvent
  | [] => []
  | ok :: rest =>
    if ok then
      .call :: .sleep interval :: AsyncClient.background_relogin_task interval rest
    else
      .call :: AsyncClient.background_relogin_task interval rest

/-- The claimed shape of one maintainer iteration: the attempt itself, followed
by exactly one interval sleep when it succeeded and by nothing (the next
attempt comes immediately) when it failed. -/
def maintIteration (interval : Nat) (ok : Bool) : List MaintEvent :=
  .call :: if ok then [.sleep interval] else []

/-- C7: every background maintainer loop (relogin and token refresh, in both
transport variants) emits, for each attempted operation, the attempt followed
by exactly one interval sleep when the operation succeeded, and by the next
attempt immediately — with no sleep — when it failed; in particular the
outcome sequence fail, fail, succeed yields three calls with no sleep between
the first two and a single interval sleep after the third. -/
theorem claim_C7_maintainer_loop_trace (interval : Nat) (outcomes : List Bool) :
    Client.background_refresh_token_task interval outcomes
        = (outcomes.map (maintIteration interval)).flatten
    ∧ Client.background_relogin_task interval outcomes
        = (outcomes.map (maintIteration interval)).flatten
    ∧ AsyncClient.background_refresh_token_task interval outcomes
        = (outcomes.map (maintIteration interval)).flatten
    ∧ AsyncClient.background_relogin_task interval outcomes
        = (outcomes.map (maintIteration interval)).flatten
    ∧ Client.background_refresh_token_task interval [false, false, true]
        = [.call, .call, .call, .sleep interval] := by
  refine ⟨?_, ?_, ?_, ?_, rfl⟩ <;>
    · induction outcomes with
      | nil => rfl
      | cons ok rest ih =>
        cases ok <;>
          simp [Client.background_refresh_token_task,
            Client.background_relogin_task,
            AsyncClient.background_refresh_token_task,
            AsyncClient.background_relogin_task, maintIteration, ih]

/-- The token fields a client instance stores (`self.access_token`,
`self.refresh_token`). -/
structure TokenState where
  accessToken : Option String
  refreshToken : Option String
deriving DecidableEq, Repr

/-- The decoded body of a successful POST to `usr/refresh_token/`
(response_types.RefreshTokenResponse): it carries the new access token. -/
structure RefreshTokenResponse where
  access : String
deriving DecidableEq, Repr

/-- Outcome oracle for the network POST inside `refresh_access_token`: either
the decoded success body, or the APIException (status, raw text) the transport
raises on a non-2xx response. -/
inductive PostOutcome
  | ok (resp : RefreshTokenResponse)
  | apiError (status : Nat) (text : String)
deriving DecidableEq, Repr

/-- What one `refresh_access_token` call did: the JSON body it posted, the
token state when it returned or raised, and the returned response or the
propagated APIException. -/
structure RefreshCallResult where
  posted : Json
  finalState : TokenState
  result : Except (Nat × String) RefreshTokenResponse

/-- Python's `refresh_token or self.refresh_token`: the supplied value when it
is truthy (present and non-empty), the stored one otherwise. -/
def pyOrStr : Option String → Option String → Option String
  | some s, b => if s.isEmpty then b else some s
  | Option.none, b => b

/-- The posted body `{"refresh": t}` (None serializing to JSON null). -/
def refreshBody : Option String → Json
  | some s => .obj [("refresh", .str s)]
  | Option.none => .obj [("refresh", .null)]

/-- Embedding of `Client.refresh_access_token` (client.py lines 319-341):
post `{"refresh": refresh_token or self.refresh_token}`; if the POST raises
APIException it propagates before any assignment, leaving both token fields
unchanged; on success `self.access_token = response["access"]` runs and the
stored refresh token is never written. -/
def Client.refresh_access_token (st : TokenState) (supplied : Option String)
    (outcome : PostOutcome) : RefreshCallResult :=
  let t := pyOrStr supplied st.refreshToken
  match outcome with
  | .apiError status text =>
    { posted := refreshBody t, finalState := st, result := .error (status, text) }
  | .ok resp =>
    { posted := refreshBody t,
      finalState := { st with accessToken := some resp.access },
      result := .ok resp }

/-- Embedding of `AsyncClient.refresh_access_token` (async_client.py lines
383-405), whose body is identical to the blocking variant's. -/
def AsyncClient.refresh_access_token (st : TokenState) (supplied : Option String)
    (outcome : PostOutcome) : RefreshCallResult :=
  let t := pyOrStr supplied st.refreshToken
  match outcome with
  | .apiError status text =>
    { posted := refreshBody t, finalState := st, result := .error (status, text) }
  | .ok resp =>
    { posted := refreshBody t,
      finalState := { st with accessToken := some resp.access },
      result := .ok resp }

/-- C9 counterexample: the claim says the posted body is `{"refresh": t}` with
`t` the explicitly supplied token whenever one is given. The code computes
`refresh_token or self.refresh_token` with Python or-truthiness, so an
explicitly supplied empty-string token is ignored in favour of the stored one:
with stored refresh token "R" and supplied token "", both variants post
`{"refresh": "R"}`, not `{"refresh": ""}`. -/
theorem claim_C9_counterexample :
    (Client.refresh_access_token ⟨some "A", some "R"⟩ (some "") (.ok ⟨"N"⟩)).posted
        = refreshBody (some "R")
    ∧ (AsyncClient.refresh_access_token ⟨some "A", some "R"⟩ (some "")
        (.ok ⟨"N"⟩)).posted = refreshBody (some "R")
    ∧ refreshBody (some "R") ≠ refreshBody (some "") := by
  refine ⟨rfl, rfl, ?_⟩
  intro h
  have h2 : "R" = "" := by
    have := congrArg (fun j =>
      match j with
      | Json.obj ((_, Json.str s) :: _) => s
      | _ => "?") h
    simp only [refreshBody] at this
    exact this
  exact absurd h2 (by decide)

/-- C9 amended: the body posted by `refresh_access_token` is `{"refresh": t}`
where `t` is the explicitly supplied token when it is given and non-empty and
the stored refresh token otherwise (Python or-truthiness); on success the
stored access token becomes the response's `access` field while the stored
refresh token is left unchanged; on an APIException the call propagates the
error and neither token field is modified. Both transport variants agree. -/
theorem claim_C9_amended_refresh_access_token (st : TokenState)
    (supplied : Option String) (outcome : PostOutcome) :
    ((∃ s, supplied = some s ∧ s.isEmpty = false) →
        (Client.refresh_access_token st supplied outcome).posted
          = refreshBody supplied
        ∧ (AsyncClient.refresh_access_token st supplied outcome).posted
          = refreshBody supplied)
    ∧ ((supplied = Option.none ∨ supplied = some "") →
        (Client.refresh_access_token st supplied outcome).posted
          = refreshBody st.refreshToken
        ∧ (AsyncClient.refresh_access_token st supplied outcome).posted
          = refreshBody st.refreshToken)
    ∧ (∀ resp, outcome = .ok resp →
        (Client.refresh_access_token st supplied outcome).finalState
          = ⟨some resp.access, st.refreshToken⟩
        ∧ (Client.refresh_access_token st supplied outcome).result = .ok resp
        ∧ (AsyncClient.refresh_access_token st supplied outcome).finalState
          = ⟨some resp.access, st.refreshToken⟩
        ∧ (AsyncClient.refresh_access_token st supplied outcome).result
          = .ok resp)
    ∧ (∀ status text, outcome = .apiError status text →
        (Client.refresh_access_token st supplied outcome).finalState = st
        ∧ (Client.refresh_access_token st supplied outcome).result
          = .error (status, text)
        ∧ (AsyncClient.refresh_access_token st supplied outcome).finalState = st
        ∧ (AsyncClient.refresh_access_token st supplied outcome).result
          = .error (status, text)) := by
  refine ⟨?_, ?_, ?_, ?_⟩
  · rintro ⟨s, rfl, hs⟩
    have ht : pyOrStr (some s) st.refreshToken = some s := by
      simp [pyOrStr, hs]
    cases outcome <;>
      simp [Client.refresh_access_token, AsyncClient.refresh_access_token, ht]
  · have hE : ("" : String).isEmpty = true := by decide
    rintro (rfl | rfl) <;> cases outcome <;>
      simp [Client.refresh_access_token, AsyncClient.refresh_access_token,
        pyOrStr, hE]
  · rintro resp rfl
    cases st
    simp [Client.refresh_access_token, AsyncClient.refresh_access_token]
  · rintro status text rfl
    simp [Client.refresh_access_token, AsyncClient.refresh_access_token]

/-- Witness for the amended C9 at concrete inputs: a supplied non-empty token
"T" with a successful refresh, and a stored-token call hitting a 401. -/
theorem claim_C9_amended_witness :
    (Client.refresh_access_token ⟨some "A", some "R"⟩ (some "T")
        (.ok ⟨"N"⟩)).posted = refreshBody (some "T")
    ∧ (Client.refresh_access_token ⟨some "A", some "R"⟩ (some "T")
        (.ok ⟨"N"⟩)).finalState = ⟨some "N", some "R"⟩
    ∧ (Client.refresh_access_token ⟨some "A", some "R"⟩ Option.none
        (.apiError 401 "bad")).posted = refreshBody (some "R")
    ∧ (Client.refresh_access_token ⟨some "A", some "R"⟩ Option.none
        (.apiError 401 "bad")).finalState = ⟨some "A", some "R"⟩
    ∧ (Client.refresh_access_token ⟨some "A", some "R"⟩ Option.none
        (.apiError 401 "bad")).result = .error (401, "bad") := by
  refine ⟨?_, ?_, ?_, ?_, ?_⟩
  · exact ((claim_C9_amended_refresh_access_token ⟨some "A", some "R"⟩ (some "T")
      (.ok ⟨"N"⟩)).1 ⟨"T", rfl, rfl⟩).1
  · exact ((claim_C9_amended_refresh_access_token ⟨some "A", some "R"⟩ (some "T")
      (.ok ⟨"N"⟩)).2.2.1 ⟨"N"⟩ rfl).1
  · exact ((claim_C9_amended_refresh_access_token ⟨some "A", some "R"⟩ Option.none
      (.apiError 401 "bad")).2.1 (Or.inl rfl)).1
  · exact ((claim_C9_amended_refresh_access_token ⟨some "A", some "R"⟩ Option.none
      (.apiError 401 "bad")).2.2.2 401 "bad" rfl).1
  · exact ((claim_C9_amended_refresh_access_token ⟨some "A", some "R"⟩ Option.none
      (.apiError 401 "bad")).2.2.2 401 "bad" rfl).2.1
